import Mathlib

/-!
Shallow embedding of the FiringRange TDEE calculator (src/firingrange.py,
src/tdee_gui.py). Real-number arithmetic is modelled exactly over ℚ (all the
constants in the source are exact decimal literals); fallible functions
(Python `raise ValueError`) return `Except String`.
-/

/-- The Python method `str.lower()` modelled, character by character. All strings appearing in
this program are ASCII, where `Char.toLower` agrees with Python. Defined by
structural recursion over the character list so the kernel can evaluate it. -/
def pyLower (s : String) : String := ⟨s.data.map Char.toLower⟩

/-- `lbs_to_kg` from both source files: `lbs * 0.45359237`. -/
def lbs_to_kg (lbs : ℚ) : ℚ := lbs * 0.45359237

/-- `kg_to_lbs` from both source files: `kg / 0.45359237`. -/
def kg_to_lbs (kg : ℚ) : ℚ := kg / 0.45359237

/-- `inches_to_cm` from both source files: `inches * 2.54`. -/
def inches_to_cm (inches : ℚ) : ℚ := inches * 2.54

/-- `cm_to_inches` from both source files: `cm / 2.54`. -/
def cm_to_inches (cm : ℚ) : ℚ := cm / 2.54

/-- `bmr_mifflin_st_jeor` (identical in both source files): lower the sex
string, reject anything other than "m" or "f", otherwise
`base = 10*weight_kg + 6.25*height_cm - 5*age_years` plus 5 for "m",
minus 161 for "f". -/
def bmr_mifflin_st_jeor (sex : String) (weight_kg height_cm : ℚ)
    (age_years : ℤ) : Except String ℚ :=
  let s := pyLower sex
  if ¬ (s = "m" ∨ s = "f") then
    Except.error "sex must be \x27m\x27 or \x27f\x27"
  else
    let base := 10 * weight_kg + 6.25 * height_cm - 5 * (age_years : ℚ)
    Except.ok (if s = "m" then base + 5 else base - 161)

namespace firingrange

/-- `ACTIVITY_FACTORS` of src/firingrange.py, as an association list in the
insertion order of the dict. -/
def ACTIVITY_FACTORS : List (String × ℚ) :=
  [("sedentary", 1.2), ("light", 1.375), ("moderate", 1.55),
   ("very", 1.725), ("athlete", 1.9)]

end firingrange

/-- First-match lookup in an association list, the semantics of a Python dict
read `d[key]` / `key in d` for these constant tables. -/
def lookupFactor : List (String × ℚ) → String → Option ℚ
  | [], _ => none
  | (k, v) :: rest, key => if key = k then some v else lookupFactor rest key

/-- `tdee_from_bmr` of src/firingrange.py: lower the key, raise listing the
valid keys when absent, otherwise multiply. -/
def tdee_from_bmr (bmr : ℚ) (activity_key : String) : Except String ℚ :=
  let key := pyLower activity_key
  match lookupFactor firingrange.ACTIVITY_FACTORS key with
  | none =>
      Except.error ("activity must be one of: " ++
        String.intercalate ", " (firingrange.ACTIVITY_FACTORS.map Prod.fst))
  | some f => Except.ok (bmr * f)

namespace firingrange

/-- `Person` of src/firingrange.py. -/
structure Person where
  sex : String
  age : ℤ
  weight : ℚ
  weight_unit : String
  height : ℚ
  height_unit : String
  activity : String

/-- `Person.weight_kg` of src/firingrange.py: case-insensitive unit test. -/
def Person.weight_kg (p : Person) : ℚ :=
  if pyLower p.weight_unit = "kg" then p.weight else lbs_to_kg p.weight

/-- `Person.height_cm` of src/firingrange.py: case-insensitive unit test. -/
def Person.height_cm (p : Person) : ℚ :=
  if pyLower p.height_unit = "cm" then p.height else inches_to_cm p.height

end firingrange

namespace tdee_gui

/-- `ACTIVITY_FACTORS` of src/tdee_gui.py, in the insertion order of the dict. -/
def ACTIVITY_FACTORS : List (String × ℚ) :=
  [("Sedentary (little/no exercise)", 1.2), ("Light (1–3 days/wk)", 1.375),
   ("Moderate (3–5 days/wk)", 1.55), ("Very (6–7 days/wk)", 1.725),
   ("Athlete (very hard/physical job)", 1.9)]

/-- `Person` of src/tdee_gui.py. -/
structure Person where
  sex : String
  age : ℤ
  weight : ℚ
  weight_unit : String
  height : ℚ
  height_unit : String
  activity_label : String

/-- `Person.weight_kg` of src/tdee_gui.py: case-SENSITIVE unit test. -/
def Person.weight_kg (p : Person) : ℚ :=
  if p.weight_unit = "kg" then p.weight else lbs_to_kg p.weight

/-- `Person.height_cm` of src/tdee_gui.py: case-SENSITIVE unit test. -/
def Person.height_cm (p : Person) : ℚ :=
  if p.height_unit = "cm" then p.height else inches_to_cm p.height

/-- Round-half-to-even on ℚ, the rounding used by the fixed-point
format specifiers of Python. -/
def roundHalfEven (q : ℚ) : ℤ :=
  let f := Int.floor q
  if q - f < 1 / 2 then f
  else if 1 / 2 < q - f then f + 1
  else if f % 2 = 0 then f else f + 1

/-- The Python format `q:.df` modelled for `d` decimal places, over exact rationals. -/
def fmtFixed (q : ℚ) (d : ℕ) : String :=
  let n := roundHalfEven (q * (10 : ℚ) ^ d)
  if d = 0 then toString n
  else
    let sign := if n < 0 then "-" else ""
    let m := n.natAbs
    let p := 10 ^ d
    let fracStr := toString (m % p)
    sign ++ toString (m / p) ++ "." ++
      ("".pushn (Char.ofNat 48) (d - fracStr.length) ++ fracStr)

/-- The widget state of `TDEEApp` that the `clear` and `compute` actions read
and write: the seven input variables and the text of the three result
labels. -/
structure AppState where
  sex_var : String
  age_var : String
  weight_var : String
  height_var : String
  weight_unit_var : String
  height_unit_var : String
  activity_var : String
  bmr_label : String
  tdee_label : String
  ref_label : String

/-- `TDEEApp.clear`: reset every input to its default and the three result
labels to their placeholder texts; the activity selector goes back to
`list(ACTIVITY_FACTORS.keys())[1]`. -/
def clear (s : AppState) : AppState :=
  { s with
    age_var := ""
    weight_var := ""
    height_var := ""
    sex_var := "m"
    weight_unit_var := "kg"
    height_unit_var := "cm"
    activity_var := (ACTIVITY_FACTORS.map Prod.fst).getD 1 ""
    bmr_label := "BMR (kcal/day): —"
    tdee_label := "TDEE (kcal/day): —"
    ref_label := "Reference: —" }

/-- The range checks of `TDEEApp.compute` (src/tdee_gui.py lines 147-156),
in source order; the first violated check raises. -/
def validate (age : ℤ) (weight : ℚ) (w_unit : String) (height : ℚ)
    (h_unit : String) : Except String Unit :=
  if ¬ (14 ≤ age ∧ age ≤ 90) then
    Except.error "Age must be between 14 and 90."
  else if w_unit = "kg" ∧ ¬ (30 ≤ weight ∧ weight ≤ 300) then
    Except.error "Weight in kg must be between 30 and 300."
  else if w_unit = "lb" ∧ ¬ (66 ≤ weight ∧ weight ≤ 660) then
    Except.error "Weight in lb must be between 66 and 660."
  else if h_unit = "cm" ∧ ¬ (120 ≤ height ∧ height ≤ 220) then
    Except.error "Height in cm must be between 120 and 220."
  else if h_unit = "in" ∧ ¬ (47 ≤ height ∧ height ≤ 87) then
    Except.error "Height in inches must be between 47 and 87."
  else Except.ok ()

/-- `TDEEApp.compute`. Parsing of the age / weight / height text fields by
the Python builtins int and float is abstracted as the parameters
`pInt` and `pFloat` (`none` models a raised `ValueError`; our theorems hold
for every parser). Any raised error is caught by the handlers at the bottom
of `compute` and shown in a dialog, modelled by the `Option String` in the
result, with the state returned untouched; on success the three result
labels are rewritten and no dialog appears. -/
def computeBody (pInt : String → Option ℤ) (pFloat : String → Option ℚ)
    (s : AppState) : Except String AppState :=
  match pInt s.age_var with
  | none => Except.error "invalid literal for int() with base 10"
  | some age =>
  match pFloat s.weight_var with
  | none => Except.error "could not convert string to float"
  | some weight =>
  match pFloat s.height_var with
  | none => Except.error "could not convert string to float"
  | some height =>
  match validate age weight s.weight_unit_var height s.height_unit_var with
  | Except.error e => Except.error e
  | Except.ok _ =>
    let person : Person :=
      ⟨s.sex_var, age, weight, s.weight_unit_var, height, s.height_unit_var,
       s.activity_var⟩
    let w_kg := person.weight_kg
    let h_cm := person.height_cm
    match bmr_mifflin_st_jeor person.sex w_kg h_cm person.age with
    | Except.error e => Except.error e
    | Except.ok bmr =>
      match lookupFactor ACTIVITY_FACTORS s.activity_var with
      | none => Except.error ("KeyError: " ++ s.activity_var)
      | some factor =>
        let tdee := bmr * factor
        Except.ok
          { s with
            bmr_label := "BMR (kcal/day): " ++ fmtFixed bmr 0
            tdee_label := "TDEE (kcal/day): " ++ fmtFixed tdee 0
            ref_label := "Reference: weight " ++ fmtFixed w_kg 1 ++ " kg (" ++
              fmtFixed (kg_to_lbs w_kg) 1 ++ " lb), height " ++
              fmtFixed h_cm 1 ++ " cm (" ++ fmtFixed (cm_to_inches h_cm) 1 ++
              " in), activity factor " ++ fmtFixed factor 3 }

/-- The `try/except` dispatch of `TDEEApp.compute`: a raised error leaves the
widgets untouched and becomes the dialog message; success installs the
rewritten labels with no dialog. -/
def compute (pInt : String → Option ℤ) (pFloat : String → Option ℚ)
    (s : AppState) : AppState × Option String :=
  match computeBody pInt pFloat s with
  | Except.error e => (s, some e)
  | Except.ok s2 => (s2, none)

/-- A concrete widget state whose age field does not parse as an integer,
exercising the failure path of `compute`. -/
def badAgeState : AppState :=
  ⟨"m", "abc", "70", "175", "kg", "cm", "Light (1–3 days/wk)",
   "BMR (kcal/day): 1674", "TDEE (kcal/day): 2301", "Reference: old"⟩

end tdee_gui

/-! ## Helper lemmas -/

theorem lookupFactor_eq_none_iff (l : List (String × ℚ)) (key : String) :
    lookupFactor l key = none ↔ key ∉ l.map Prod.fst := by
  induction l with
  | nil => simp [lookupFactor]
  | cons p rest ih =>
    obtain ⟨k, v⟩ := p
    by_cases h : key = k
    · simp [lookupFactor, h]
    · simp [lookupFactor, h, ih]

/-! ## Claims -/

/-- C1: for all inputs, `bmr_mifflin_st_jeor` computes
`base = 10*weight_kg + 6.25*height_cm - 5*age_years` and returns `base + 5`
for male sex ("m", case-insensitive) and `base - 161` for female sex ("f",
case-insensitive); in particular bmr("m", 70, 175, 25) = 1673.75 and
bmr("f", 60, 165, 30) = 1320.25. -/
theorem c1_bmr_formula :
    (∀ (sex : String) (w h : ℚ) (a : ℤ), pyLower sex = "m" →
      bmr_mifflin_st_jeor sex w h a =
        Except.ok (10 * w + 6.25 * h - 5 * (a : ℚ) + 5)) ∧
    (∀ (sex : String) (w h : ℚ) (a : ℤ), pyLower sex = "f" →
      bmr_mifflin_st_jeor sex w h a =
        Except.ok (10 * w + 6.25 * h - 5 * (a : ℚ) - 161)) ∧
    bmr_mifflin_st_jeor "m" 70 175 25 = Except.ok 1673.75 ∧
    bmr_mifflin_st_jeor "f" 60 165 30 = Except.ok 1320.25 := by
  refine ⟨?_, ?_, ?_, ?_⟩
  · intro sex w h a hm
    simp [bmr_mifflin_st_jeor, hm]
  · intro sex w h a hf
    simp [bmr_mifflin_st_jeor, hf]
  · simp [bmr_mifflin_st_jeor, pyLower]
    norm_num
  · simp [bmr_mifflin_st_jeor, pyLower]
    norm_num

/-- C1 witness: the male branch evaluated at a concrete mixed-case input. -/
theorem c1_bmr_formula_witness :
    bmr_mifflin_st_jeor "M" 80 180 40 =
      Except.ok (10 * 80 + 6.25 * 180 - 5 * ((40 : ℤ) : ℚ) + 5) :=
  c1_bmr_formula.1 "M" 80 180 40 rfl

/-- C3: `bmr_mifflin_st_jeor` fails exactly when the lowered sex string is
neither "m" nor "f"; in particular it fails on "x" in any casing. -/
theorem c3_bmr_sex_validation :
    (∀ (sex : String) (w h : ℚ) (a : ℤ),
      (∃ e, bmr_mifflin_st_jeor sex w h a = Except.error e) ↔
        ¬ (pyLower sex = "m" ∨ pyLower sex = "f")) ∧
    (∀ (sex : String) (w h : ℚ) (a : ℤ), pyLower sex = "x" →
      bmr_mifflin_st_jeor sex w h a =
        Except.error "sex must be \x27m\x27 or \x27f\x27") ∧
    bmr_mifflin_st_jeor "x" 70 175 25 =
      Except.error "sex must be \x27m\x27 or \x27f\x27" ∧
    bmr_mifflin_st_jeor "X" 70 175 25 =
      Except.error "sex must be \x27m\x27 or \x27f\x27" := by
  refine ⟨?_, ?_, rfl, rfl⟩
  · intro sex w h a
    constructor
    · rintro ⟨e, he⟩ hmf
      simp [bmr_mifflin_st_jeor, hmf] at he
    · intro hmf
      exact ⟨"sex must be \x27m\x27 or \x27f\x27",
        by simp [bmr_mifflin_st_jeor, hmf]⟩
  · intro sex w h a hx
    simp [bmr_mifflin_st_jeor, hx]

/-- C3 witness: the error characterization evaluated at a concrete invalid
sex string. -/
theorem c3_bmr_sex_validation_witness :
    ∃ e, bmr_mifflin_st_jeor "q" 1 1 1 = Except.error e :=
  (c3_bmr_sex_validation.1 "q" 1 1 1).mpr (by decide)

/-- C4: for every positive weight, converting lb→kg→lb reproduces it exactly
over exact arithmetic, hence within 1e-9 relative error; symmetrically for
the length pair in→cm→in. -/
theorem c4_roundtrip :
    (∀ w : ℚ, 0 < w → kg_to_lbs (lbs_to_kg w) = w ∧
      |kg_to_lbs (lbs_to_kg w) - w| ≤ w * (1 / 10 ^ 9)) ∧
    (∀ x : ℚ, 0 < x → cm_to_inches (inches_to_cm x) = x ∧
      |cm_to_inches (inches_to_cm x) - x| ≤ x * (1 / 10 ^ 9)) := by
  constructor
  · intro w hw
    have h : kg_to_lbs (lbs_to_kg w) = w := by
      unfold kg_to_lbs lbs_to_kg
      rw [mul_div_cancel_right₀]
      norm_num
    refine ⟨h, ?_⟩
    rw [h, sub_self, abs_zero]
    positivity
  · intro x hx
    have h : cm_to_inches (inches_to_cm x) = x := by
      unfold cm_to_inches inches_to_cm
      rw [mul_div_cancel_right₀]
      norm_num
    refine ⟨h, ?_⟩
    rw [h, sub_self, abs_zero]
    positivity

/-- C4 witness: the weight round trip evaluated at 2 kg... at 2 lb. -/
theorem c4_roundtrip_witness :
    kg_to_lbs (lbs_to_kg 2) = 2 ∧
      |kg_to_lbs (lbs_to_kg 2) - 2| ≤ 2 * (1 / 10 ^ 9) :=
  c4_roundtrip.1 2 (by norm_num)

/-- C5: the four unit conversions are total functions of one rational
argument computing multiplication by 0.45359237, multiplication by its
reciprocal, multiplication by 2.54, and division by 2.54. -/
theorem c5_conversions :
    ∀ x : ℚ,
      lbs_to_kg x = x * 0.45359237 ∧
      kg_to_lbs x = x * (1 / 0.45359237) ∧
      inches_to_cm x = x * 2.54 ∧
      cm_to_inches x = x / 2.54 := by
  intro x
  refine ⟨rfl, ?_, rfl, rfl⟩
  rw [kg_to_lbs, div_eq_mul_inv, one_div]

/-- C2: `tdee_from_bmr` looks the lowered key up in the activity table and
multiplies; it succeeds exactly when the lowered key is one of the five
table keys, and otherwise errors with a message listing all five valid
keys; tdee(1673.75, "sedentary") = 2008.5. -/
theorem c2_tdee_lookup :
    (∀ (b : ℚ) (k : String) (f : ℚ),
      lookupFactor firingrange.ACTIVITY_FACTORS (pyLower k) = some f →
      tdee_from_bmr b k = Except.ok (b * f)) ∧
    (∀ (b : ℚ) (k : String),
      (∃ v, tdee_from_bmr b k = Except.ok v) ↔
        pyLower k ∈ ["sedentary", "light", "moderate", "very", "athlete"]) ∧
    (∀ (b : ℚ) (k : String),
      lookupFactor firingrange.ACTIVITY_FACTORS (pyLower k) = none →
      tdee_from_bmr b k = Except.error
        "activity must be one of: sedentary, light, moderate, very, athlete") ∧
    tdee_from_bmr 1673.75 "sedentary" = Except.ok 2008.5 := by
  refine ⟨?_, ?_, ?_, ?_⟩
  · intro b k f hf
    simp [tdee_from_bmr, hf]
  · intro b k
    constructor
    · rintro ⟨v, hv⟩
      by_contra hmem
      have hn : lookupFactor firingrange.ACTIVITY_FACTORS (pyLower k) = none := by
        rw [lookupFactor_eq_none_iff]
        simpa [firingrange.ACTIVITY_FACTORS] using hmem
      simp [tdee_from_bmr, hn] at hv
    · intro hmem
      have hne : lookupFactor firingrange.ACTIVITY_FACTORS (pyLower k) ≠ none := by
        simp only [Ne, lookupFactor_eq_none_iff, not_not]
        simpa [firingrange.ACTIVITY_FACTORS] using hmem
      rcases ho : lookupFactor firingrange.ACTIVITY_FACTORS (pyLower k) with _ | f
      · exact absurd ho hne
      · exact ⟨b * f, by simp [tdee_from_bmr, ho]⟩
  · intro b k hn
    simp only [tdee_from_bmr, hn]
    rfl
  · have h : tdee_from_bmr 1673.75 "sedentary" = Except.ok (1673.75 * 1.2) := rfl
    rw [h]
    norm_num

/-- C2 witness: the success branch applied at a mixed-case key. -/
theorem c2_tdee_lookup_witness :
    tdee_from_bmr 1000 "LIGHT" = Except.ok (1000 * 1.375) :=
  c2_tdee_lookup.1 1000 "LIGHT" 1.375 rfl

/-- C6: both activity tables have exactly five entries, the multipliers in
table order are 1.2, 1.375, 1.55, 1.725, 1.9, strictly increasing and each
at least 1, and the CLI and windowed tables carry identical multiplier
lists. -/
theorem c6_activity_tables :
    firingrange.ACTIVITY_FACTORS.length = 5 ∧
    firingrange.ACTIVITY_FACTORS.map Prod.snd = [1.2, 1.375, 1.55, 1.725, 1.9] ∧
    List.Chain' (fun a b => a < b) (firingrange.ACTIVITY_FACTORS.map Prod.snd) ∧
    (firingrange.ACTIVITY_FACTORS.map Prod.snd).all (fun f => 1 ≤ f) = true ∧
    tdee_gui.ACTIVITY_FACTORS.length = 5 ∧
    tdee_gui.ACTIVITY_FACTORS.map Prod.snd =
      firingrange.ACTIVITY_FACTORS.map Prod.snd := by
  refine ⟨rfl, rfl, ?_, ?_, rfl, rfl⟩
  · simp [firingrange.ACTIVITY_FACTORS, List.chain'_cons]
    norm_num
  · simp [firingrange.ACTIVITY_FACTORS]
    norm_num

/-- C10: in both front ends `Person.weight_kg` returns the stored weight
unchanged exactly when the stored unit string passes the kg test, otherwise
applies `lbs_to_kg` once (and symmetrically for height), with no error for
unrecognized unit strings; the CLI compares case-insensitively, the
windowed one case-sensitively, so they disagree on weight_unit = "KG". -/
theorem c10_person_unit_normalization :
    (∀ p : firingrange.Person,
      (pyLower p.weight_unit = "kg" → p.weight_kg = p.weight) ∧
      (pyLower p.weight_unit ≠ "kg" → p.weight_kg = lbs_to_kg p.weight) ∧
      (pyLower p.height_unit = "cm" → p.height_cm = p.height) ∧
      (pyLower p.height_unit ≠ "cm" → p.height_cm = inches_to_cm p.height)) ∧
    (∀ p : tdee_gui.Person,
      (p.weight_unit = "kg" → p.weight_kg = p.weight) ∧
      (p.weight_unit ≠ "kg" → p.weight_kg = lbs_to_kg p.weight) ∧
      (p.height_unit = "cm" → p.height_cm = p.height) ∧
      (p.height_unit ≠ "cm" → p.height_cm = inches_to_cm p.height)) ∧
    firingrange.Person.weight_kg
      ⟨"m", 25, 100, "KG", 175, "CM", "sedentary"⟩ = 100 ∧
    tdee_gui.Person.weight_kg
      ⟨"m", 25, 100, "KG", 175, "CM", "sedentary"⟩ = lbs_to_kg 100 ∧
    (100 : ℚ) ≠ lbs_to_kg 100 := by
  refine ⟨?_, ?_, rfl, rfl, ?_⟩
  · intro p
    refine ⟨fun h => ?_, fun h => ?_, fun h => ?_, fun h => ?_⟩ <;>
      simp [firingrange.Person.weight_kg, firingrange.Person.height_cm, h]
  · intro p
    refine ⟨fun h => ?_, fun h => ?_, fun h => ?_, fun h => ?_⟩ <;>
      simp [tdee_gui.Person.weight_kg, tdee_gui.Person.height_cm, h]
  · unfold lbs_to_kg
    norm_num

/-- C10 witness: the CLI imperial branch at a concrete person. -/
theorem c10_person_unit_normalization_witness :
    firingrange.Person.weight_kg ⟨"f", 30, 150, "lb", 65, "in", "light"⟩ =
      lbs_to_kg 150 :=
  (c10_person_unit_normalization.1
    ⟨"f", 30, 150, "lb", 65, "in", "light"⟩).2.1 (by decide)

/-- C7: the windowed validator accepts exactly when age lies in [14, 90],
weight lies in [30, 300] for unit "kg" and [66, 660] for unit "lb", and
height lies in [120, 220] for unit "cm" and [47, 87] for unit "in"; every
rejection carries the message naming the violated bound; ages 10 and 95 are
rejected, 14 and 90 accepted. -/
theorem c7_gui_validator :
    (∀ (age : ℤ) (weight : ℚ) (wu : String) (height : ℚ) (hu : String),
      (tdee_gui.validate age weight wu height hu = Except.ok () ↔
        ((14 ≤ age ∧ age ≤ 90) ∧
         (wu = "kg" → 30 ≤ weight ∧ weight ≤ 300) ∧
         (wu = "lb" → 66 ≤ weight ∧ weight ≤ 660) ∧
         (hu = "cm" → 120 ≤ height ∧ height ≤ 220) ∧
         (hu = "in" → 47 ≤ height ∧ height ≤ 87))) ∧
      (∀ e, tdee_gui.validate age weight wu height hu = Except.error e →
        ((e = "Age must be between 14 and 90." ∧
            ¬ (14 ≤ age ∧ age ≤ 90)) ∨
         (e = "Weight in kg must be between 30 and 300." ∧ wu = "kg" ∧
            ¬ (30 ≤ weight ∧ weight ≤ 300)) ∨
         (e = "Weight in lb must be between 66 and 660." ∧ wu = "lb" ∧
            ¬ (66 ≤ weight ∧ weight ≤ 660)) ∨
         (e = "Height in cm must be between 120 and 220." ∧ hu = "cm" ∧
            ¬ (120 ≤ height ∧ height ≤ 220)) ∨
         (e = "Height in inches must be between 47 and 87." ∧ hu = "in" ∧
            ¬ (47 ≤ height ∧ height ≤ 87))))) ∧
    tdee_gui.validate 10 70 "kg" 175 "cm" =
      Except.error "Age must be between 14 and 90." ∧
    tdee_gui.validate 95 70 "kg" 175 "cm" =
      Except.error "Age must be between 14 and 90." ∧
    tdee_gui.validate 14 70 "kg" 175 "cm" = Except.ok () ∧
    tdee_gui.validate 90 70 "kg" 175 "cm" = Except.ok () := by
  refine ⟨fun age weight wu height hu => ⟨?_, ?_⟩, ?_, ?_, ?_, ?_⟩
  · unfold tdee_gui.validate
    split_ifs with h1 h2 h3 h4 h5 <;> simp_all
  · intro e he
    unfold tdee_gui.validate at he
    split_ifs at he with h1 h2 h3 h4 h5 <;> simp_all
  · norm_num [tdee_gui.validate]
  · norm_num [tdee_gui.validate]
  · norm_num [tdee_gui.validate]
    exact fun hc => absurd hc (by decide)
  · norm_num [tdee_gui.validate]
    exact fun hc => absurd hc (by decide)

/-- C7 witness: the acceptance characterization applied at a concrete
in-range input. -/
theorem c7_gui_validator_witness :
    tdee_gui.validate 25 154 "lb" 70 "in" = Except.ok () :=
  ((c7_gui_validator.1 25 154 "lb" 70 "in").1).mpr
    (by decide)

/-- C8: whenever the windowed compute action reports an error — parse
failure, validation violation, or an error raised by the core — the
returned state keeps all three result labels exactly as they were. -/
theorem c8_compute_abort :
    ∀ (pInt : String → Option ℤ) (pFloat : String → Option ℚ)
      (s s2 : tdee_gui.AppState) (e : String),
      tdee_gui.compute pInt pFloat s = (s2, some e) →
      s2.bmr_label = s.bmr_label ∧ s2.tdee_label = s.tdee_label ∧
        s2.ref_label = s.ref_label := by
  intro pInt pFloat s s2 e h
  unfold tdee_gui.compute at h
  split at h
  · have h1 : s = s2 := congrArg Prod.fst h
    subst h1
    exact ⟨rfl, rfl, rfl⟩
  · have h2 : (none : Option String) = some e := congrArg Prod.snd h
    exact absurd h2 (by simp)

/-- C8 witness: the abort property applied to a concrete state whose age
field fails to parse. -/
theorem c8_compute_abort_witness :
    tdee_gui.badAgeState.bmr_label = tdee_gui.badAgeState.bmr_label ∧
    tdee_gui.badAgeState.tdee_label = tdee_gui.badAgeState.tdee_label ∧
    tdee_gui.badAgeState.ref_label = tdee_gui.badAgeState.ref_label :=
  c8_compute_abort (fun _ => none) (fun _ => none) tdee_gui.badAgeState
    tdee_gui.badAgeState "invalid literal for int() with base 10" rfl

/-- C9: from any widget state, Clear resets sex to "m", the weight unit to
"kg", the height unit to "cm", the activity selector to the second table
entry, the three text fields to empty, and the three result labels to
their placeholder texts ending in the em dash. -/
theorem c9_clear_resets :
    ∀ s : tdee_gui.AppState,
      (tdee_gui.clear s).sex_var = "m" ∧
      (tdee_gui.clear s).weight_unit_var = "kg" ∧
      (tdee_gui.clear s).height_unit_var = "cm" ∧
      (tdee_gui.clear s).activity_var =
        (tdee_gui.ACTIVITY_FACTORS.map Prod.fst).getD 1 "" ∧
      (tdee_gui.clear s).activity_var = "Light (1–3 days/wk)" ∧
      (tdee_gui.clear s).age_var = "" ∧
      (tdee_gui.clear s).weight_var = "" ∧
      (tdee_gui.clear s).height_var = "" ∧
      (tdee_gui.clear s).bmr_label = "BMR (kcal/day): —" ∧
      (tdee_gui.clear s).tdee_label = "TDEE (kcal/day): —" ∧
      (tdee_gui.clear s).ref_label = "Reference: —" := by
  intro s
  exact ⟨rfl, rfl, rfl, rfl, rfl, rfl, rfl, rfl, rfl, rfl, rfl⟩
